import Mathlib

/-!
Shallow embedding of the device-metric interpretation subsystem of the
`linux-kernel-tui` repository (src/main.cpp, the "v2 OOP" program, and
src/unnamed/part_000, the earlier `render_metric` variant).

The filesystem is modelled as a map from path strings to a file state:
absent, present-but-unopenable, or readable with a content string.
`fs::exists` is true for any non-absent state; `read_file` succeeds only
on readable files (an unopenable file models permission failure, where
`std::ifstream` exists but cannot be opened).

`std::stof` is modelled on the decimal-numeral fragment of its grammar
(optional leading whitespace, optional sign, digits with an optional
fractional part, optional decimal exponent); the hexadecimal, infinity
and NaN forms never occur in the sysfs attribute files this program
reads and are not modelled.  An out-of-range magnitude (beyond the
largest finite single-precision value) yields `none`, matching the
`std::out_of_range` throw.  Values are exact rationals; for the integer
millidegree inputs this program consumes, the comparison with the 60 °C
threshold and the displayed 4-character prefix agree with the
single-precision computation of the C++ code.
-/

set_option maxRecDepth 8000

set_option allowUnsafeReducibility true in
attribute [semireducible] Rat.add Rat.mul Rat.inv Rat.div Rat.sub Rat.neg

namespace KMap

/-- State of one path in the modelled pseudo-filesystem. -/
inductive FileState
  | absent
  | unreadable
  | readable (content : String)
deriving DecidableEq, Repr

/-- The filesystem: every path string has a file state. -/
def FS : Type := String → FileState

/-- Model of `fs::exists` (true for any non-absent state, readable or not). -/
def fsExists (fs : FS) (p : String) : Bool :=
  match fs p with
  | FileState.absent => false
  | _ => true

/-- Model of the `std::getline` loop: consume characters up to but
excluding the first line terminator (or end of content). -/
def getlineList : List Char → List Char
  | [] => []
  | c :: cs => if c = '\n' then [] else c :: getlineList cs

/-- `read_file` from both source files: open the path; on failure return
the empty string; otherwise return the first line of the content. -/
def read_file (fs : FS) (path : String) : String :=
  match fs path with
  | FileState.readable content => String.mk (getlineList content.data)
  | _ => ""

/-- The whitespace characters skipped by `std::stof` (via `isspace`). -/
def isSpaceChar (c : Char) : Bool :=
  c == ' ' || c == '\t' || c == '\n' || c == '\x0B' || c == '\x0C' || c == '\r'

/-- Split a leading run of decimal digits from the rest. -/
def parseDigits : List Char → List Char × List Char
  | [] => ([], [])
  | c :: cs =>
    if c.isDigit then
      let p := parseDigits cs
      (c :: p.1, p.2)
    else ([], c :: cs)

/-- Numeric value of a digit list, most significant first. -/
def natOfDigits (ds : List Char) : ℕ :=
  ds.foldl (fun a c => 10 * a + (c.toNat - '0'.toNat)) 0

/-- Decimal exponent part of a numeral (`e`/`E`, optional sign, digits);
consumed only when at least one digit follows, as in `strtof`. -/
def parseExp : List Char → ℤ
  | 'e' :: r | 'E' :: r =>
    (match r with
     | '-' :: r2 =>
       let d := parseDigits r2
       if d.1.isEmpty then 0 else -(natOfDigits d.1 : ℤ)
     | '+' :: r2 =>
       let d := parseDigits r2
       if d.1.isEmpty then 0 else (natOfDigits d.1 : ℤ)
     | r2 =>
       let d := parseDigits r2
       if d.1.isEmpty then 0 else (natOfDigits d.1 : ℤ))
  | _ => 0

/-- Largest finite single-precision value, (2 − 2⁻²³)·2¹²⁷, as a rational. -/
def floatMax : ℚ := (2 ^ 24 - 1) * 2 ^ 104

/-- Model of `std::stof` on decimal numerals: `none` when no numeral can
be parsed (`std::invalid_argument`) or the magnitude exceeds the float
range (`std::out_of_range`); otherwise the exact rational value of the
longest valid prefix. -/
def stof (s : String) : Option ℚ :=
  let l0 := s.data.dropWhile isSpaceChar
  let sgn : ℚ := match l0 with
    | '-' :: _ => -1
    | _ => 1
  let l1 : List Char := match l0 with
    | '-' :: r => r
    | '+' :: r => r
    | _ => l0
  let ip := parseDigits l1
  let fp : List Char × List Char := match ip.2 with
    | '.' :: r => parseDigits r
    | _ => ([], ip.2)
  if ip.1.isEmpty && fp.1.isEmpty then none
  else
    let mant : ℚ := (natOfDigits ip.1 : ℚ) + (natOfDigits fp.1 : ℚ) / 10 ^ fp.1.length
    let v : ℚ := sgn * mant * (10 : ℚ) ^ parseExp fp.2
    if floatMax < |v| then none else some v

/-- Emphasis hint of a display line, abstracting the ftxui colors:
green → `normal`, red → `alert`, gray → `muted`, no color → `plain`. -/
inductive Emphasis
  | normal
  | alert
  | muted
  | plain
deriving DecidableEq, Repr

/-- One rendered line of output: its full text and its emphasis hint.
An `hbox` of texts is one field with the texts concatenated. -/
structure DisplayField where
  text : String
  emphasis : Emphasis
deriving DecidableEq, Repr

/-- Left-pad a numeral string to six digits with zeros. -/
def pad6 (n : ℕ) : String :=
  let s := toString n
  String.mk (List.replicate (6 - s.length) '0') ++ s

/-- Model of `std::to_string` on a floating value: `%f` formatting, six
digits after the decimal point, rounding half away from zero. -/
def toStringFloat (q : ℚ) : String :=
  let sgn := if q < 0 then "-" else ""
  let scaled : ℕ := (|q| * 1000000 + 1 / 2).floor.toNat
  sgn ++ toString (scaled / 1000000) ++ "." ++ pad6 (scaled % 1000000)

/-- `ThermalSensor::is_compatible` (main.cpp): the device has a `temp` file. -/
def ThermalSensor.is_compatible (fs : FS) (path : String) : Bool :=
  fsExists fs (path ++ "/temp")

/-- `NetworkSensor::is_compatible` (main.cpp): the device has an `operstate` file. -/
def NetworkSensor.is_compatible (fs : FS) (path : String) : Bool :=
  fsExists fs (path ++ "/operstate")

/-- `PowerSensor::is_compatible` (main.cpp): the device has a `capacity` file. -/
def PowerSensor.is_compatible (fs : FS) (path : String) : Bool :=
  fsExists fs (path ++ "/capacity")

/-- `ThermalSensor::render` (main.cpp): read `temp`; empty read gives one
error field; a parse failure gives one "Parse Error" field; otherwise the
temperature line (4-character prefix of the `to_string` form, red above
60 °C, green otherwise) and, when `type` reads non-empty, a sensor-type line. -/
def ThermalSensor.render (fs : FS) (path : String) : List DisplayField :=
  let raw := read_file fs (path ++ "/temp")
  if raw = "" then [⟨"Error reading temp", Emphasis.plain⟩]
  else
    match stof raw with
    | none => [⟨"Parse Error", Emphasis.plain⟩]
    | some x =>
      let temp : ℚ := x / 1000
      let content : DisplayField :=
        ⟨"Temperature: " ++ (toStringFloat temp).take 4 ++ " °C",
         if 60 < temp then Emphasis.alert else Emphasis.normal⟩
      let ty := read_file fs (path ++ "/type")
      if ty = "" then [content]
      else [content, ⟨"Sensor Type: " ++ ty, Emphasis.plain⟩]

/-- `NetworkSensor::render` (main.cpp): the link-state line (green when
`operstate` reads "up", red otherwise), then a MAC line when `address`
reads non-empty, then a data line when `statistics/rx_bytes` reads non-empty. -/
def NetworkSensor.render (fs : FS) (path : String) : List DisplayField :=
  let state := read_file fs (path ++ "/operstate")
  let stateField : DisplayField :=
    ⟨"Link State: " ++ state, if state = "up" then Emphasis.normal else Emphasis.alert⟩
  let mac := read_file fs (path ++ "/address")
  let rx := read_file fs (path ++ "/statistics/rx_bytes")
  [stateField]
    ++ (if mac = "" then [] else [⟨"MAC: " ++ mac, Emphasis.plain⟩])
    ++ (if rx = "" then [] else [⟨"Data Rx: " ++ rx ++ " bytes", Emphasis.plain⟩])

/-- `PowerSensor::render` (main.cpp): battery-level and status lines,
emitted unconditionally from whatever `capacity` and `status` read. -/
def PowerSensor.render (fs : FS) (path : String) : List DisplayField :=
  let cap := read_file fs (path ++ "/capacity")
  let status := read_file fs (path ++ "/status")
  [⟨"Battery Level: " ++ cap ++ "%", Emphasis.plain⟩,
   ⟨"Status: " ++ status, Emphasis.plain⟩]

/-- The device kind of the spec's data model. -/
inductive DeviceKind
  | Thermal
  | Network
  | Power
  | Unknown
deriving DecidableEq, Repr

/-- The kind selected by the driver loop of main.cpp (drivers pushed in
the order Thermal, Network, Power; first compatible driver wins), which
is also the order of the `if`/`else if` chain of `render_metric`. -/
def classify (fs : FS) (path : String) : DeviceKind :=
  if ThermalSensor.is_compatible fs path then DeviceKind.Thermal
  else if NetworkSensor.is_compatible fs path then DeviceKind.Network
  else if PowerSensor.is_compatible fs path then DeviceKind.Power
  else DeviceKind.Unknown

/-- The driver loop of main.cpp: the first compatible driver renders the
device; with no compatible driver the detail view stays the gray
"No driver matched" line. -/
def classifyAndFormat (fs : FS) (path : String) : List DisplayField :=
  if ThermalSensor.is_compatible fs path then ThermalSensor.render fs path
  else if NetworkSensor.is_compatible fs path then NetworkSensor.render fs path
  else if PowerSensor.is_compatible fs path then PowerSensor.render fs path
  else [⟨"No driver matched for this device.", Emphasis.muted⟩]

/-- `render_metric` (part_000, the earlier variant): the same
`if`/`else if` classification chain, but the thermal branch pushes
nothing on an empty read or a parse failure (the `catch` body is empty),
so those cases fall through to the "No standard metrics found." line. -/
def render_metric (fs : FS) (parent_path device_name : String) : List DisplayField :=
  let full_path := parent_path ++ "/" ++ device_name
  let details : List DisplayField :=
    if fsExists fs (full_path ++ "/temp") then
      let raw := read_file fs (full_path ++ "/temp")
      if raw = "" then []
      else
        match stof raw with
        | none => []
        | some x =>
          let temp : ℚ := x / 1000
          let fld : DisplayField :=
            ⟨"Temperature: " ++ (toStringFloat temp).take 4 ++ " °C",
             if 60 < temp then Emphasis.alert else Emphasis.normal⟩
          let ty := read_file fs (full_path ++ "/type")
          if ty = "" then [fld]
          else [fld, ⟨"Sensor Type: " ++ ty, Emphasis.plain⟩]
    else if fsExists fs (full_path ++ "/operstate") then
      let state := read_file fs (full_path ++ "/operstate")
      let stateField : DisplayField :=
        ⟨"Link State: " ++ state, if state = "up" then Emphasis.normal else Emphasis.alert⟩
      let mac := read_file fs (full_path ++ "/address")
      let rx := read_file fs (full_path ++ "/statistics/rx_bytes")
      [stateField]
        ++ (if mac = "" then [] else [⟨"MAC Address: " ++ mac, Emphasis.plain⟩])
        ++ (if rx = "" then [] else [⟨"Total Data Rx: " ++ rx ++ " bytes", Emphasis.plain⟩])
    else if fsExists fs (full_path ++ "/capacity") then
      let cap := read_file fs (full_path ++ "/capacity")
      let status := read_file fs (full_path ++ "/status")
      [⟨"Battery Level: " ++ cap ++ "%", Emphasis.plain⟩,
       ⟨"Status: " ++ status, Emphasis.plain⟩]
    else []
  if details.isEmpty then [⟨"No standard metrics found.", Emphasis.muted⟩]
  else details

/-- Smallest number of display lines each kind can produce. -/
def kindMin : DeviceKind → ℕ
  | DeviceKind.Power => 2
  | _ => 1

/-- Largest number of display lines each kind can produce. -/
def kindMax : DeviceKind → ℕ
  | DeviceKind.Thermal => 2
  | DeviceKind.Network => 3
  | DeviceKind.Power => 2
  | DeviceKind.Unknown => 1

/-- Witness filesystem for C1: a device exposing both `temp` and `operstate`. -/
def wfsC1 : FS := fun p =>
  if p = "dev/temp" then FileState.readable "50000"
  else if p = "dev/operstate" then FileState.readable "up"
  else FileState.absent

/-- Witness filesystem for C3: `temp` holds a non-numeric value. -/
def wfsC3 : FS := fun p =>
  if p = "dev/temp" then FileState.readable "abc" else FileState.absent

/-- Witness filesystem for C4: `temp` exists but cannot be read. -/
def wfsC4 : FS := fun p =>
  if p = "dev/temp" then FileState.unreadable else FileState.absent

/-- Witness filesystems for C5: `temp` holds the boundary values. -/
def wfsC5a : FS := fun p =>
  if p = "dev/temp" then FileState.readable "60001" else FileState.absent

/-- Second witness filesystem for C5, at the other side of the boundary. -/
def wfsC5b : FS := fun p =>
  if p = "dev/temp" then FileState.readable "60000" else FileState.absent

/-- Witness filesystem for C6: only a `temp` file holding "45000". -/
def wfsC6 : FS := fun p =>
  if p = "dev/temp" then FileState.readable "45000" else FileState.absent

/-- Witness filesystem for C7: no relevant attribute at all. -/
def wfsC7 : FS := fun _ => FileState.absent

/-- Witness filesystem for C8: link up with a MAC address and no rx counter. -/
def wfsC8 : FS := fun p =>
  if p = "dev/operstate" then FileState.readable "up"
  else if p = "dev/address" then FileState.readable "00:11:22:33:44:55"
  else FileState.absent

/-- Witness filesystem for C9: a battery with `capacity` but unreadable `status`. -/
def wfsC9 : FS := fun p =>
  if p = "dev/capacity" then FileState.readable "87" else FileState.absent

/-- A non-empty read implies the file exists (read success needs a readable file). -/
theorem read_file_ne_empty (fs : FS) (p : String) (h : read_file fs p ≠ "") :
    fsExists fs p = true := by
  revert h
  unfold read_file fsExists
  cases fs p <;> simp

/-- The `getline` loop returns the longest terminator-free leading run. -/
theorem getlineList_takeWhile (l : List Char) :
    getlineList l = l.takeWhile (fun ch => ch != '\n') := by
  induction l with
  | nil => rfl
  | cons c cs ih =>
    by_cases h : c = '\n'
    · simp [getlineList, List.takeWhile, h]
    · have hb : (c != '\n') = true := by simp [h]
      simp [getlineList, List.takeWhile, h, hb, ih]

/-- The thermal driver renders one or two lines. -/
theorem thermal_render_length (fs : FS) (path : String) :
    1 ≤ (ThermalSensor.render fs path).length ∧
    (ThermalSensor.render fs path).length ≤ 2 := by
  by_cases h : read_file fs (path ++ "/temp") = ""
  · simp [ThermalSensor.render, h]
  · rcases hs : stof (read_file fs (path ++ "/temp")) with _ | x
    · simp [ThermalSensor.render, h, hs]
    · by_cases hty : read_file fs (path ++ "/type") = "" <;>
        simp [ThermalSensor.render, h, hs, hty]

/-- The network driver renders between one and three lines. -/
theorem network_render_length (fs : FS) (path : String) :
    1 ≤ (NetworkSensor.render fs path).length ∧
    (NetworkSensor.render fs path).length ≤ 3 := by
  by_cases hm : read_file fs (path ++ "/address") = "" <;>
    by_cases hr : read_file fs (path ++ "/statistics/rx_bytes") = "" <;>
      simp [NetworkSensor.render, hm, hr]

/-- The power driver renders exactly two lines. -/
theorem power_render_length (fs : FS) (path : String) :
    (PowerSensor.render fs path).length = 2 := by
  simp [PowerSensor.render]

/-- `render_metric` renders between one and three lines. -/
theorem render_metric_length (fs : FS) (parent name : String) :
    1 ≤ (render_metric fs parent name).length ∧
    (render_metric fs parent name).length ≤ 3 := by
  by_cases ht : fsExists fs (parent ++ "/" ++ name ++ "/temp") = true
  · by_cases h : read_file fs (parent ++ "/" ++ name ++ "/temp") = ""
    · simp [render_metric, ht, h]
    · rcases hs : stof (read_file fs (parent ++ "/" ++ name ++ "/temp")) with _ | x
      · simp [render_metric, ht, h, hs]
      · by_cases hty : read_file fs (parent ++ "/" ++ name ++ "/type") = "" <;>
          simp [render_metric, ht, h, hs, hty]
  · by_cases ho : fsExists fs (parent ++ "/" ++ name ++ "/operstate") = true
    · by_cases hm : read_file fs (parent ++ "/" ++ name ++ "/address") = "" <;>
        by_cases hr : read_file fs (parent ++ "/" ++ name ++ "/statistics/rx_bytes") = "" <;>
          simp [render_metric, ht, ho, hm, hr]
    · by_cases hc : fsExists fs (parent ++ "/" ++ name ++ "/capacity") = true <;>
        simp [render_metric, ht, ho, hc]

/-- Claim C2: for every filesystem and device directory the formatter
produces a display sequence of at least one and at most three lines, and
per kind the count lies in the stated range (Thermal 1–2, Network 1–3,
Power exactly 2, Unknown exactly 1); the part_000 `render_metric` variant
also always yields one to three lines.  Totality (no escaping fault) holds
by construction: both functions are total Lean functions. -/
theorem spec_C2 (fs : FS) (path parent name : String) :
    1 ≤ (classifyAndFormat fs path).length ∧
    (classifyAndFormat fs path).length ≤ 3 ∧
    kindMin (classify fs path) ≤ (classifyAndFormat fs path).length ∧
    (classifyAndFormat fs path).length ≤ kindMax (classify fs path) ∧
    1 ≤ (render_metric fs parent name).length ∧
    (render_metric fs parent name).length ≤ 3 := by
  have hrm := render_metric_length fs parent name
  by_cases ht : ThermalSensor.is_compatible fs path = true
  · have hl := thermal_render_length fs path
    refine ⟨?_, ?_, ?_, ?_, hrm.1, hrm.2⟩ <;>
      simp [classifyAndFormat, classify, ht, kindMin, kindMax] <;> omega
  · by_cases ho : NetworkSensor.is_compatible fs path = true
    · have hl := network_render_length fs path
      refine ⟨?_, ?_, ?_, ?_, hrm.1, hrm.2⟩ <;>
        simp [classifyAndFormat, classify, ht, ho, kindMin, kindMax] <;> omega
    · by_cases hc : PowerSensor.is_compatible fs path = true
      · have hl := power_render_length fs path
        refine ⟨?_, ?_, ?_, ?_, hrm.1, hrm.2⟩ <;>
          simp [classifyAndFormat, classify, ht, ho, hc, kindMin, kindMax] <;> omega
      · refine ⟨?_, ?_, ?_, ?_, hrm.1, hrm.2⟩ <;>
          simp [classifyAndFormat, classify, ht, ho, hc, kindMin, kindMax]

/-- Claim C1: a device directory exposing both `temp` and `operstate` is
classified Thermal and never Network; the drivers are tried in the fixed
order Thermal, Network, Power and dispatch stops at the first match, so
such a directory is rendered by the thermal driver. -/
theorem spec_C1 (fs : FS) (path : String)
    (ht : fsExists fs (path ++ "/temp") = true)
    (ho : fsExists fs (path ++ "/operstate") = true) :
    classify fs path = DeviceKind.Thermal ∧
    classify fs path ≠ DeviceKind.Network ∧
    classifyAndFormat fs path = ThermalSensor.render fs path := by
  refine ⟨?_, ?_, ?_⟩ <;>
    simp [classify, classifyAndFormat, ThermalSensor.is_compatible, ht]

/-- Witness for C1 on a concrete device exposing both attributes. -/
theorem spec_C1_witness :
    classify wfsC1 "dev" = DeviceKind.Thermal ∧
    classify wfsC1 "dev" ≠ DeviceKind.Network ∧
    classifyAndFormat wfsC1 "dev" = ThermalSensor.render wfsC1 "dev" :=
  spec_C1 wfsC1 "dev" (by decide) (by decide)

/-- Claim C3: when `temp` exists and reads a non-empty value that `stof`
cannot parse, the result is exactly the single "Parse Error" line — no
partial temperature line and no "Sensor Type" line. -/
theorem spec_C3 (fs : FS) (path : String)
    (ht : fsExists fs (path ++ "/temp") = true)
    (hne : read_file fs (path ++ "/temp") ≠ "")
    (hp : stof (read_file fs (path ++ "/temp")) = none) :
    classifyAndFormat fs path = [⟨"Parse Error", Emphasis.plain⟩] := by
  simp [classifyAndFormat, ThermalSensor.is_compatible, ht,
    ThermalSensor.render, hne, hp]

/-- Witness for C3 with `temp = "abc"`. -/
theorem spec_C3_witness :
    classifyAndFormat wfsC3 "dev" = [⟨"Parse Error", Emphasis.plain⟩] :=
  spec_C3 wfsC3 "dev" (by decide) (by decide) (by decide)

/-- Claim C4: when `temp` exists but reads the empty string (unreadable or
empty file), the result is exactly the single "Error reading temp" line. -/
theorem spec_C4 (fs : FS) (path : String)
    (ht : fsExists fs (path ++ "/temp") = true)
    (he : read_file fs (path ++ "/temp") = "") :
    classifyAndFormat fs path = [⟨"Error reading temp", Emphasis.plain⟩] := by
  simp [classifyAndFormat, ThermalSensor.is_compatible, ht,
    ThermalSensor.render, he]

/-- Witness for C4 with an existing but unreadable `temp`. -/
theorem spec_C4_witness :
    classifyAndFormat wfsC4 "dev" = [⟨"Error reading temp", Emphasis.plain⟩] :=
  spec_C4 wfsC4 "dev" (by decide) (by decide)

/-- Claim C5: whenever the `temp` reading parses, the rendered sequence
starts with the temperature line, whose emphasis is alert exactly when the
value in degrees (the parsed value divided by 1000) strictly exceeds 60,
and normal otherwise. -/
theorem spec_C5 (fs : FS) (path : String) (x : ℚ)
    (hp : stof (read_file fs (path ++ "/temp")) = some x) :
    ∃ f rest, classifyAndFormat fs path = f :: rest ∧
      f.text = "Temperature: " ++ (toStringFloat (x / 1000)).take 4 ++ " °C" ∧
      (f.emphasis = Emphasis.alert ↔ 60 < x / 1000) ∧
      (f.emphasis = Emphasis.normal ↔ ¬ 60 < x / 1000) := by
  have hne : read_file fs (path ++ "/temp") ≠ "" := by
    intro h
    rw [h] at hp
    have hnone : stof "" = none := by decide
    rw [hnone] at hp
    cases hp
  have hex : fsExists fs (path ++ "/temp") = true :=
    read_file_ne_empty fs (path ++ "/temp") hne
  by_cases hty : read_file fs (path ++ "/type") = ""
  · refine ⟨⟨"Temperature: " ++ (toStringFloat (x / 1000)).take 4 ++ " °C",
      if 60 < x / 1000 then Emphasis.alert else Emphasis.normal⟩, [], ?_, rfl, ?_, ?_⟩
    · simp [classifyAndFormat, ThermalSensor.is_compatible, hex,
        ThermalSensor.render, hne, hp, hty]
    · by_cases h60 : (60 : ℚ) < x / 1000 <;> simp [h60]
    · by_cases h60 : (60 : ℚ) < x / 1000 <;> simp [h60]
  · refine ⟨⟨"Temperature: " ++ (toStringFloat (x / 1000)).take 4 ++ " °C",
      if 60 < x / 1000 then Emphasis.alert else Emphasis.normal⟩,
      [⟨"Sensor Type: " ++ read_file fs (path ++ "/type"), Emphasis.plain⟩],
      ?_, rfl, ?_, ?_⟩
    · simp [classifyAndFormat, ThermalSensor.is_compatible, hex,
        ThermalSensor.render, hne, hp, hty]
    · by_cases h60 : (60 : ℚ) < x / 1000 <;> simp [h60]
    · by_cases h60 : (60 : ℚ) < x / 1000 <;> simp [h60]

/-- Witness for C5 at the boundary: raw 60001 millidegrees is alert,
raw 60000 millidegrees is normal. -/
theorem spec_C5_witness :
    (∃ f rest, classifyAndFormat wfsC5a "dev" = f :: rest ∧
      f.text = "Temperature: " ++ (toStringFloat ((60001 : ℚ) / 1000)).take 4 ++ " °C" ∧
      (f.emphasis = Emphasis.alert ↔ (60 : ℚ) < 60001 / 1000) ∧
      (f.emphasis = Emphasis.normal ↔ ¬ (60 : ℚ) < 60001 / 1000)) ∧
    (∃ f rest, classifyAndFormat wfsC5b "dev" = f :: rest ∧
      f.text = "Temperature: " ++ (toStringFloat ((60000 : ℚ) / 1000)).take 4 ++ " °C" ∧
      (f.emphasis = Emphasis.alert ↔ (60 : ℚ) < 60000 / 1000) ∧
      (f.emphasis = Emphasis.normal ↔ ¬ (60 : ℚ) < 60000 / 1000)) ∧
    (60 : ℚ) < 60001 / 1000 ∧ ¬ (60 : ℚ) < 60000 / 1000 :=
  ⟨spec_C5 wfsC5a "dev" 60001 (by decide),
   spec_C5 wfsC5b "dev" 60000 (by decide),
   by decide, by decide⟩

/-- Claim C6: a device whose only relevant attribute is `temp` containing
"45000" renders as the single temperature line "45.0 °C" with normal
emphasis and no "Sensor Type" line. -/
theorem spec_C6 (fs : FS) (path : String)
    (ht : fs (path ++ "/temp") = FileState.readable "45000")
    (hty : read_file fs (path ++ "/type") = "") :
    classifyAndFormat fs path = [⟨"Temperature: 45.0 °C", Emphasis.normal⟩] := by
  have hraw : read_file fs (path ++ "/temp") = "45000" := by
    unfold read_file
    rw [ht]
    decide
  have hex : fsExists fs (path ++ "/temp") = true := by
    unfold fsExists
    rw [ht]
  have hne : read_file fs (path ++ "/temp") ≠ "" := by
    rw [hraw]
    decide
  have hstof : stof (read_file fs (path ++ "/temp")) = some 45000 := by
    rw [hraw]
    decide
  have hq : ((45000 : ℚ)) / 1000 = 45 := by decide
  have hfmt : (toStringFloat 45).take 4 = "45.0" := by decide
  have h60 : ¬ (60 : ℚ) < 45 := by decide
  simp [classifyAndFormat, ThermalSensor.is_compatible, hex,
    ThermalSensor.render, hne, hstof, hq, hfmt, h60, hty]

/-- Witness for C6 on a concrete filesystem with only `temp = "45000"`. -/
theorem spec_C6_witness :
    classifyAndFormat wfsC6 "dev" = [⟨"Temperature: 45.0 °C", Emphasis.normal⟩] :=
  spec_C6 wfsC6 "dev" (by decide) (by decide)

/-- Claim C7: a device directory lacking `temp`, `operstate` and `capacity`
yields exactly one informational "no metrics" line, in both program
variants (main.cpp driver loop and part_000 `render_metric`). -/
theorem spec_C7 (fs : FS) (parent name : String)
    (h1 : fs (parent ++ "/" ++ name ++ "/temp") = FileState.absent)
    (h2 : fs (parent ++ "/" ++ name ++ "/operstate") = FileState.absent)
    (h3 : fs (parent ++ "/" ++ name ++ "/capacity") = FileState.absent) :
    classifyAndFormat fs (parent ++ "/" ++ name) =
      [⟨"No driver matched for this device.", Emphasis.muted⟩] ∧
    render_metric fs parent name =
      [⟨"No standard metrics found.", Emphasis.muted⟩] := by
  constructor
  · simp [classifyAndFormat, ThermalSensor.is_compatible,
      NetworkSensor.is_compatible, PowerSensor.is_compatible,
      fsExists, h1, h2, h3]
  · simp [render_metric, fsExists, h1, h2, h3]

/-- Witness for C7 on the empty filesystem. -/
theorem spec_C7_witness :
    classifyAndFormat wfsC7 ("sys" ++ "/" ++ "dev") =
      [⟨"No driver matched for this device.", Emphasis.muted⟩] ∧
    render_metric wfsC7 "sys" "dev" =
      [⟨"No standard metrics found.", Emphasis.muted⟩] :=
  spec_C7 wfsC7 "sys" "dev" (by decide) (by decide) (by decide)

/-- Claim C8: when `operstate` reads "up", `address` reads non-empty and
`statistics/rx_bytes` reads empty, the network driver applies (the device
exists) and its output is exactly the "up" link-state line with normal
emphasis followed by the MAC line, with no data line. -/
theorem spec_C8 (fs : FS) (path : String)
    (hup : read_file fs (path ++ "/operstate") = "up")
    (hmac : read_file fs (path ++ "/address") ≠ "")
    (hrx : read_file fs (path ++ "/statistics/rx_bytes") = "") :
    NetworkSensor.is_compatible fs path = true ∧
    NetworkSensor.render fs path =
      [⟨"Link State: up", Emphasis.normal⟩,
       ⟨"MAC: " ++ read_file fs (path ++ "/address"), Emphasis.plain⟩] := by
  constructor
  · exact read_file_ne_empty fs (path ++ "/operstate") (by simp [hup])
  · simp [NetworkSensor.render, hup, hmac, hrx]

/-- Witness for C8 on a concrete "up" interface with a MAC address. -/
theorem spec_C8_witness :
    NetworkSensor.is_compatible wfsC8 "dev" = true ∧
    NetworkSensor.render wfsC8 "dev" =
      [⟨"Link State: up", Emphasis.normal⟩,
       ⟨"MAC: " ++ read_file wfsC8 ("dev" ++ "/address"), Emphasis.plain⟩] :=
  spec_C8 wfsC8 "dev" (by decide) (by decide) (by decide)

/-- Claim C9: a device classified Power (`capacity` exists, `temp` and
`operstate` do not) yields exactly the battery-level line followed by the
status line, built from whatever the reads return — including empty. -/
theorem spec_C9 (fs : FS) (path : String)
    (h1 : fsExists fs (path ++ "/temp") = false)
    (h2 : fsExists fs (path ++ "/operstate") = false)
    (h3 : fsExists fs (path ++ "/capacity") = true) :
    classify fs path = DeviceKind.Power ∧
    classifyAndFormat fs path =
      [⟨"Battery Level: " ++ read_file fs (path ++ "/capacity") ++ "%", Emphasis.plain⟩,
       ⟨"Status: " ++ read_file fs (path ++ "/status"), Emphasis.plain⟩] := by
  constructor <;>
    simp [classify, classifyAndFormat, ThermalSensor.is_compatible,
      NetworkSensor.is_compatible, PowerSensor.is_compatible, h1, h2, h3,
      PowerSensor.render]

/-- Witness for C9: capacity "87" and an unreadable status still yield
both lines, the status one with an empty value. -/
theorem spec_C9_witness :
    classify wfsC9 "dev" = DeviceKind.Power ∧
    classifyAndFormat wfsC9 "dev" =
      [⟨"Battery Level: " ++ read_file wfsC9 ("dev" ++ "/capacity") ++ "%", Emphasis.plain⟩,
       ⟨"Status: " ++ read_file wfsC9 ("dev" ++ "/status"), Emphasis.plain⟩] :=
  spec_C9 wfsC9 "dev" (by decide) (by decide) (by decide)

/-- Claim C10: the attribute reader returns the first line of a readable
file's content, up to but excluding the line terminator, and the empty
string on an absent or unopenable file — so an absent file, an unreadable
file and an empty file are indistinguishable from its result. -/
theorem spec_C10 (fs : FS) (path : String) :
    read_file fs path =
      (match fs path with
       | FileState.readable c => String.mk (c.data.takeWhile (fun ch => ch != '\n'))
       | _ => "") ∧
    read_file (fun _ => FileState.absent) path =
      read_file (fun _ => FileState.unreadable) path ∧
    read_file (fun _ => FileState.absent) path =
      read_file (fun _ => FileState.readable "") path := by
  refine ⟨?_, by simp [read_file], by simp [read_file, getlineList]⟩
  unfold read_file
  cases fs path <;> simp [getlineList_takeWhile]

end KMap
